import Mathlib

/-!
Verification development for the vulnerability triage / report-consolidation
core of the analyzed repository.

The Python sources are shallowly embedded as Lean definitions:

* Python floats become exact rationals (every constant in the scoring code is
  a small multiple of 1/20, so the arithmetic is exact);
* Python dicts that are used as data (the severity / priority distributions)
  become association lists with Python dict update semantics (update the
  first matching key in place, else append);
* dict *literals* used only for lookup with a default become if-chains;
* `datetime.now()` and `uuid` become explicit parameters;
* values read from parsed JSON objects with `.get(key, default)` become
  `Option` fields read with `Option.getD`;
* external collaborators (the LLM call composed with the JSON extraction of
  its free-text response) become an explicit oracle parameter returning
  `Except`, mirroring the `try/except` structure of the calling code;
* Python attribute lookup on objects whose class does not define the
  attribute (pydantic models raise `AttributeError`) is embedded by an
  explicit guard over the class's field- or method-name list, transcribed
  from the class definitions in the source.
-/

/-- Lowercasing of a single character as performed by Python `str.lower` on
the Latin range actually used by the repository's vocabulary (ASCII A-Z and
the Latin-1 uppercase block 0xC0-0xDE except the multiplication sign). -/
def pyCharLower (c : Char) : Char :=
  if (65 ≤ c.toNat ∧ c.toNat ≤ 90) ∨
      (192 ≤ c.toNat ∧ c.toNat ≤ 222 ∧ c.toNat ≠ 215) then
    Char.ofNat (c.toNat + 32)
  else c

/-- Embedding of Python `str.lower` (on the character range relevant to the
Spanish/English vocabulary of the repository). -/
def pyLower (s : String) : String := s.map pyCharLower

/-- Python truthiness filter on an optional string: `None` and the empty
string are falsy.  Used to embed `a or b` chains over `.get` results. -/
def pyTruthy (o : Option String) : Option String :=
  match o with
  | some s => if s = "" then none else some s
  | none => none

/-- Python `dict.get(k, 0)` over an association list. -/
def dictGet (d : List (String × Nat)) (k : String) : Nat :=
  match d.find? (fun p => p.1 == k) with
  | some p => p.2
  | none => 0

/-- Python `d[k] = v`: replace the first binding of `k` in place, else
append a new binding (insertion order is preserved, as in a Python dict). -/
def dictSet : List (String × Nat) → String → Nat → List (String × Nat)
  | [], k, v => [(k, v)]
  | p :: rest, k, v => if p.1 == k then (k, v) :: rest else p :: dictSet rest k v

/-- Embedding of `d[k] = d.get(k, 0) + 1`. -/
def dictIncr (d : List (String × Nat)) (k : String) : List (String × Nat) :=
  dictSet d k (dictGet d k + 1)

/-- Sum of all values stored in an embedded dict. -/
def sumValues (d : List (String × Nat)) : Nat := (d.map (fun p => p.2)).sum

/-- The message of a Python `AttributeError` raised when an attribute is
looked up on a pydantic model that does not define it. -/
def pyAttributeError (cls attr : String) : String :=
  s!"AttributeError: {cls} object has no attribute {attr}"

/-- The canonical 5-value severity vocabulary (spec section 3). -/
def canonicalSeverities : List String :=
  ["crítica", "alta", "media", "baja", "informativa"]

/-- The canonical 5-tier priority vocabulary (spec section 3). -/
def canonicalPriorities : List String := ["P0", "P1", "P2", "P3", "P4"]

/-- Evidence dictionary as consumed by `TriageService.calculate_severity_score`
and `TriageService.calculate_confidence_score` (`triage_service.py`): a JSON
object whose fields are read with `.get`. -/
structure EvidenceDict where
  tipo_evidencia : Option String
  criticidad_evidencia : Option String

/-- Vulnerability attribute dictionary consumed by
`TriageService.calculate_severity_score` (`triage_service.py`, lines 26-66).
`has_proof_of_concept` embeds the `"proof_of_concept" in vulnerability` key
test; absent `evidencias` behaves as the empty list (only its length is
read). -/
structure VulnAttrs where
  impacto : Option String
  probabilidad_explotacion : Option String
  evidencias : List EvidenceDict
  has_proof_of_concept : Bool

/-- Evidence attached to a triaged vulnerability (`TriageEvidence` in
`entities.py` / `models/triage.py`; the enum-typed model stores the string
values of its enums since `use_enum_values = True`). -/
structure TriageEvidence where
  tipo_evidencia : String
  descripcion : String
  contenido : String
  ubicacion : Option String
  criticidad_evidencia : String

/-- Recommendation attached to a triaged vulnerability
(`TriageRecommendation` in `entities.py` / `models/triage.py`). -/
structure TriageRecommendation where
  tipo : String
  descripcion : String
  pasos_implementacion : List String
  recursos_necesarios : List String
  impacto_implementacion : String

/-- The central `TriagedVulnerability` entity (`entities.py`, lines 88-116;
field-for-field identical to `models/triage.py` whose enum fields hold the
same string values because of `use_enum_values`). Severity and priority are
plain strings: the entity performs no validation of its own. -/
structure TriagedVulnerability where
  id_vulnerabilidad : String
  nombre : String
  descripcion_original : String
  severidad_original : String
  severidad_triage : String
  justificacion_severidad : String
  prioridad : String
  justificacion_prioridad : String
  evidencias : List TriageEvidence
  impacto_real : String
  probabilidad_explotacion : String
  recomendaciones : List TriageRecommendation
  fecha_triage : Int
  confianza_analisis : ℚ
  requiere_validacion_manual : Bool
  notas_adicionales : Option String

namespace TriageService

/-- `impact_weights` dict lookup with default 1.0
(`triage_service.py`, lines 38-45). -/
def impact_weight (s : String) : ℚ :=
  if s = "crítico" then 4
  else if s = "alto" then 3
  else if s = "medio" then 2
  else if s = "bajo" then 1
  else 1

/-- `exploit_weights` dict lookup with default 1.0
(`triage_service.py`, lines 48-54). -/
def exploit_weight (s : String) : ℚ :=
  if s = "alta" then 3
  else if s = "media" then 2
  else if s = "baja" then 1
  else 1

/-- `TriageService.calculate_severity_score` (`triage_service.py`,
lines 26-66), embedded statement by statement. -/
def calculate_severity_score (v : VulnAttrs) : ℚ :=
  let base0 : ℚ := 0
  let base1 := base0 + impact_weight (pyLower (v.impacto.getD "bajo"))
  let base2 := base1 + exploit_weight (pyLower (v.probabilidad_explotacion.getD "baja"))
  let base3 :=
    if v.evidencias.isEmpty then base2
    else base2 + min ((v.evidencias.length : ℚ) * (1 / 2)) 2
  let base4 := if v.has_proof_of_concept then base3 + 1 else base3
  min base4 10

/-- The claim's closed-form description of the severity score: impact factor
plus exploit-probability factor plus evidence-volume factor
`min(evidence_count * 0.5, 2.0)` plus a +1.0 proof-of-concept bonus, clamped
to at most 10.0 (spec section 4.1). -/
def severity_score_spec_formula (v : VulnAttrs) : ℚ :=
  min
    (impact_weight (pyLower (v.impacto.getD "bajo"))
      + exploit_weight (pyLower (v.probabilidad_explotacion.getD "baja"))
      + min ((v.evidencias.length : ℚ) * (1 / 2)) 2
      + (if v.has_proof_of_concept then 1 else 0))
    10

/-- `evidence_weights` dict lookup with default 0.05
(`triage_service.py`, lines 116-126). -/
def evidence_type_weight (t : String) : ℚ :=
  if t = "código" then 3 / 10
  else if t = "respuesta_http" then 1 / 5
  else if t = "archivo" then 3 / 20
  else if t = "configuración" then 1 / 10
  else if t = "base_datos" then 1 / 4
  else 1 / 20

/-- Weight contributed by one evidence item: per-type base weight adjusted
by the criticality multiplier (`triage_service.py`, lines 124-135). -/
def evidence_item_weight (e : EvidenceDict) : ℚ :=
  let w := evidence_type_weight (e.tipo_evidencia.getD "")
  let criticality := e.criticidad_evidencia.getD "bajo"
  if criticality = "alto" then w * (3 / 2)
  else if criticality = "medio" then w * (6 / 5)
  else w

/-- `TriageService.calculate_confidence_score` (`triage_service.py`,
lines 108-137): 0.3 for no evidence, otherwise 0.5 plus the accumulated
evidence weights, clamped to 1.0. -/
def calculate_confidence_score (evidences : List EvidenceDict) : ℚ :=
  if evidences.isEmpty then 3 / 10
  else min (evidences.foldl (fun acc e => acc + evidence_item_weight e) (1 / 2)) 1

end TriageService

theorem TriageService.impact_weight_bounds (s : String) :
    1 ≤ TriageService.impact_weight s ∧ TriageService.impact_weight s ≤ 4 := by
  unfold TriageService.impact_weight
  split_ifs <;> norm_num

theorem TriageService.exploit_weight_bounds (s : String) :
    1 ≤ TriageService.exploit_weight s ∧ TriageService.exploit_weight s ≤ 3 := by
  unfold TriageService.exploit_weight
  split_ifs <;> norm_num

/-- Claim C6: `calculate_severity_score` equals the spec's weighted-sum
formula (impact factor + exploit-probability factor + clamped
evidence-volume factor + proof-of-concept bonus, clamped to 10.0) and its
result always lies in the interval [0, 10]. -/
theorem c6_severity_score_formula_and_range (v : VulnAttrs) :
    TriageService.calculate_severity_score v = TriageService.severity_score_spec_formula v ∧
    0 ≤ TriageService.calculate_severity_score v ∧
    TriageService.calculate_severity_score v ≤ 10 := by
  have hiw := TriageService.impact_weight_bounds (pyLower (v.impacto.getD "bajo"))
  have hew := TriageService.exploit_weight_bounds (pyLower (v.probabilidad_explotacion.getD "baja"))
  have hlen : (0 : ℚ) ≤ min ((v.evidencias.length : ℚ) * (1 / 2)) 2 :=
    le_min (by positivity) (by norm_num)
  have hpoc : (0 : ℚ) ≤ (if v.has_proof_of_concept then (1 : ℚ) else 0) := by
    split_ifs <;> norm_num
  have hform : TriageService.calculate_severity_score v =
      TriageService.severity_score_spec_formula v := by
    unfold TriageService.calculate_severity_score TriageService.severity_score_spec_formula
    cases h : v.evidencias.isEmpty with
    | true =>
      have hnil : v.evidencias = [] := List.isEmpty_iff.mp h
      simp only [hnil, List.isEmpty_nil, List.length_nil, if_true, Nat.cast_zero]
      have h0 : min ((0 : ℚ) * (1 / 2)) 2 = 0 := by norm_num
      rw [h0]
      split_ifs <;> (congr 1; ring)
    | false =>
      simp only [h, Bool.false_eq_true, if_false]
      split_ifs <;> (congr 1; ring)
  refine ⟨hform, ?_, ?_⟩
  · rw [hform]
    unfold TriageService.severity_score_spec_formula
    exact le_min (by linarith [hiw.1, hew.1]) (by norm_num)
  · rw [hform]
    unfold TriageService.severity_score_spec_formula
    exact min_le_right _ _

theorem TriageService.evidence_type_weight_pos (t : String) :
    0 < TriageService.evidence_type_weight t := by
  unfold TriageService.evidence_type_weight
  split_ifs <;> norm_num

theorem TriageService.evidence_item_weight_pos (e : EvidenceDict) :
    0 < TriageService.evidence_item_weight e := by
  have hw := TriageService.evidence_type_weight_pos (e.tipo_evidencia.getD "")
  unfold TriageService.evidence_item_weight
  dsimp only
  split_ifs
  · exact mul_pos hw (by norm_num)
  · exact mul_pos hw (by norm_num)
  · exact hw

theorem TriageService.confidence_foldl_ge (l : List EvidenceDict) (init : ℚ) :
    init ≤ l.foldl (fun acc e => acc + TriageService.evidence_item_weight e) init := by
  induction l generalizing init with
  | nil => simp
  | cons e rest ih =>
    have h1 : init ≤ init + TriageService.evidence_item_weight e := by
      have := TriageService.evidence_item_weight_pos e
      linarith
    exact le_trans h1 (ih (init + TriageService.evidence_item_weight e))

/-- Claim C7: the confidence score is always within [0, 1], is exactly 0.3
on the empty evidence list, and appending one more evidence item never
decreases it. -/
theorem c7_confidence_bounds_base_monotone (l : List EvidenceDict) :
    (0 ≤ TriageService.calculate_confidence_score l ∧
      TriageService.calculate_confidence_score l ≤ 1) ∧
    TriageService.calculate_confidence_score [] = 3 / 10 ∧
    ∀ e : EvidenceDict,
      TriageService.calculate_confidence_score l ≤
        TriageService.calculate_confidence_score (l ++ [e]) := by
  refine ⟨?_, by simp [TriageService.calculate_confidence_score], ?_⟩
  · unfold TriageService.calculate_confidence_score
    split_ifs with h
    · norm_num
    · constructor
      · apply le_min
        · have := TriageService.confidence_foldl_ge l (1 / 2)
          linarith
        · norm_num
      · exact min_le_right _ _
  · intro e
    have hpos := TriageService.evidence_item_weight_pos e
    unfold TriageService.calculate_confidence_score
    rcases Classical.em (l = []) with hnil | hnil
    · subst hnil
      simp only [List.isEmpty_nil, List.nil_append, List.isEmpty_cons, if_true, if_false]
      apply le_min
      · simp only [List.foldl_cons, List.foldl_nil]
        linarith
      · norm_num
    · have h1 : l.isEmpty = false := by simpa using hnil
      have h2 : (l ++ [e]).isEmpty = false := by simp
      simp only [h1, h2, if_false]
      apply min_le_min _ le_rfl
      rw [List.foldl_append]
      simp only [List.foldl_cons, List.foldl_nil]
      have := TriageService.confidence_foldl_ge l (1 / 2 : ℚ)
      linarith

namespace TriageService

/-- `severity_weights` of the domain-service risk engine
(`triage_service.py`, lines 145-151): informational weighs 0.5, default 1.0. -/
def severity_weight (s : String) : ℚ :=
  if s = "crítica" then 10
  else if s = "alta" then 7
  else if s = "media" then 4
  else if s = "baja" then 2
  else if s = "informativa" then 1 / 2
  else 1

/-- `TriageService.calculate_overall_risk_score` (`triage_service.py`,
lines 139-162): confidence-weighted severity weights averaged over the
batch, clamped to 10. -/
def calculate_overall_risk_score (vulns : List TriagedVulnerability) : ℚ :=
  if vulns.isEmpty then 0
  else
    let total := vulns.foldl
      (fun acc v => acc + severity_weight v.severidad_triage * v.confianza_analisis) 0
    let avg := total / (vulns.length : ℚ)
    min avg 10

end TriageService

namespace TriageAgent

/-- `severity_weights` of the triage-agent risk engine (`triage_agent.py`,
lines 419-425): informational weighs 1.0, default 5.0. -/
def severity_weight (s : String) : ℚ :=
  if s = "crítica" then 10
  else if s = "alta" then 15 / 2
  else if s = "media" then 5
  else if s = "baja" then 5 / 2
  else if s = "informativa" then 1
  else 5

/-- `TriageAgent._calculate_risk_score` (`triage_agent.py`, lines 414-435). -/
def calculate_risk_score (vulns : List TriagedVulnerability) : ℚ :=
  if vulns.isEmpty then 0
  else
    let total := vulns.foldl
      (fun acc v => acc + severity_weight v.severidad_triage * v.confianza_analisis) 0
    let avg := total / (vulns.length : ℚ)
    min 10 avg

end TriageAgent

/-- A concrete informational-severity vulnerability with confidence 1, used
to separate the two risk engines. -/
def infoVulnOne : TriagedVulnerability :=
  { id_vulnerabilidad := "v1"
    nombre := "hallazgo informativo"
    descripcion_original := ""
    severidad_original := "informativa"
    severidad_triage := "informativa"
    justificacion_severidad := ""
    prioridad := "P4"
    justificacion_prioridad := ""
    evidencias := []
    impacto_real := ""
    probabilidad_explotacion := "baja"
    recomendaciones := []
    fecha_triage := 0
    confianza_analisis := 1
    requiere_validacion_manual := false
    notas_adicionales := none }

/-- Claim C8: on a single informational-severity vulnerability with
confidence `c`, the domain-service risk engine yields `0.5 * c` while the
triage-agent risk engine yields `1.0 * c`, and the two embedded risk
functions are not equal. -/
theorem c8_informational_weight_divergence (v : TriagedVulnerability)
    (hs : v.severidad_triage = "informativa")
    (hc0 : 0 ≤ v.confianza_analisis) (hc1 : v.confianza_analisis ≤ 1) :
    TriageService.calculate_overall_risk_score [v] = (1 / 2) * v.confianza_analisis ∧
    TriageAgent.calculate_risk_score [v] = 1 * v.confianza_analisis ∧
    TriageService.calculate_overall_risk_score ≠ TriageAgent.calculate_risk_score := by
  refine ⟨?_, ?_, ?_⟩
  · unfold TriageService.calculate_overall_risk_score
    simp only [List.isEmpty_cons, Bool.false_eq_true, if_false, List.foldl_cons,
      List.foldl_nil, List.length_cons, List.length_nil, hs]
    rw [show TriageService.severity_weight "informativa" = 1 / 2 from rfl]
    rw [min_eq_left (by push_cast; linarith)]
    push_cast
    ring
  · unfold TriageAgent.calculate_risk_score
    simp only [List.isEmpty_cons, Bool.false_eq_true, if_false, List.foldl_cons,
      List.foldl_nil, List.length_cons, List.length_nil, hs]
    rw [show TriageAgent.severity_weight "informativa" = 1 from rfl]
    rw [min_eq_right (by push_cast; linarith)]
    push_cast
    ring
  · intro hfun
    have h2 := congrFun hfun [infoVulnOne]
    have e1 : TriageService.calculate_overall_risk_score [infoVulnOne] = 1 / 2 := by
      unfold TriageService.calculate_overall_risk_score
      norm_num [infoVulnOne,
        show TriageService.severity_weight "informativa" = 1 / 2 from rfl]
    have e2 : TriageAgent.calculate_risk_score [infoVulnOne] = 1 := by
      unfold TriageAgent.calculate_risk_score
      norm_num [infoVulnOne,
        show TriageAgent.severity_weight "informativa" = 1 from rfl]
    rw [e1, e2] at h2
    norm_num at h2

/-- Witness for claim C8 at the concrete single-vulnerability batch
`[infoVulnOne]`. -/
theorem c8_informational_weight_divergence_witness :
    TriageService.calculate_overall_risk_score [infoVulnOne] =
      (1 / 2) * infoVulnOne.confianza_analisis ∧
    TriageAgent.calculate_risk_score [infoVulnOne] = 1 * infoVulnOne.confianza_analisis ∧
    TriageService.calculate_overall_risk_score ≠ TriageAgent.calculate_risk_score :=
  c8_informational_weight_divergence infoVulnOne rfl (by norm_num [infoVulnOne])
    (by norm_num [infoVulnOne])

/-- Stable insertion of `x` into `l`: `x` is placed before the first element
whose key is greater than or equal to `key x`, so elements with equal keys
keep their original relative order. -/
def insertByKey {α : Type} (key : α → Nat) (x : α) : List α → List α
  | [] => [x]
  | a :: rest => if key x ≤ key a then x :: a :: rest else a :: insertByKey key x rest

/-- Stable sort by a natural-number key; embeds Python `sorted(l, key=...)`,
which is specified to be a stable sort by the computed keys. -/
def stableSortByKey {α : Type} (key : α → Nat) (l : List α) : List α :=
  l.foldr (insertByKey key) []

theorem insertByKey_length {α : Type} (key : α → Nat) (x : α) (B : List α) :
    (insertByKey key x B).length = B.length + 1 := by
  induction B with
  | nil => rfl
  | cons b rest ih =>
    simp only [insertByKey]
    split_ifs <;> simp [ih]

theorem stableSortByKey_length {α : Type} (key : α → Nat) (l : List α) :
    (stableSortByKey key l).length = l.length := by
  induction l with
  | nil => rfl
  | cons x rest ih =>
    show (insertByKey key x (stableSortByKey key rest)).length = rest.length + 1
    rw [insertByKey_length, ih]

/-- One item of the remediation plan produced by
`TriageService.generate_remediation_plan` (`triage_service.py`,
lines 186-197). -/
structure PlanItem where
  orden : Nat
  vulnerabilidad_id : String
  nombre : String
  prioridad : String
  severidad : String
  tiempo_estimado : String
  recursos_necesarios : List String
  acciones_principales : List String

namespace TriageService

/-- `TriageService._estimate_remediation_time` (`triage_service.py`,
lines 201-210): fixed priority-to-duration table with default
"No definido". -/
def estimate_remediation_time (p : String) : String :=
  if p = "P0" then "< 24 horas"
  else if p = "P1" then "< 1 semana"
  else if p = "P2" then "< 1 mes"
  else if p = "P3" then "< 3 meses"
  else if p = "P4" then "Cuando sea posible"
  else "No definido"

/-- `TriageService._extract_resources_from_recommendations`
(`triage_service.py`, lines 212-218). The Python code takes `list(set(...))`
whose iteration order is unspecified; the set union is modelled in
first-occurrence order. -/
def extract_resources_from_recommendations (recs : List TriageRecommendation) :
    List String :=
  (recs.foldl (fun acc r => acc ++ r.recursos_necesarios) []).eraseDups

/-- `TriageService._extract_main_actions` (`triage_service.py`,
lines 220-226): the first three recommendation descriptions. -/
def extract_main_actions (recs : List TriageRecommendation) : List String :=
  (recs.map (fun r => r.descripcion)).take 3

/-- `priority_order.index(v.prioridad)` (`triage_service.py`, lines 178-183):
position of the priority in the fixed order `[P0, P1, P2, P3, P4]`.  The
value 5 stands for the `ValueError` branch: `.index` raises for a priority
outside the list, which `generate_remediation_plan` surfaces as an error
before any key reaches this value. -/
def priority_index (p : String) : Nat :=
  if p = "P0" then 0
  else if p = "P1" then 1
  else if p = "P2" then 2
  else if p = "P3" then 3
  else if p = "P4" then 4
  else 5

/-- Python attribute lookup `.value` on a plain `str`: `str` defines no
`value` attribute, so the lookup raises.  The `prioridad` and
`severidad_triage` fields hold plain strings — `entities.py` declares them
`str`, and the `models/triage.py` variant sets `use_enum_values = True`, so
pydantic stores the enum values (strings) in the fields. -/
def pyStrValue (_s : String) : Except String String :=
  Except.error (pyAttributeError "str" "value")

/-- The `for i, vuln in enumerate(sorted_vulns, 1)` loop body of
`generate_remediation_plan` (`triage_service.py`, lines 185-197).  The
plan-item dict evaluates `vuln.prioridad.value` and
`vuln.severidad_triage.value` (lines 191-192) in dict order; both fields
hold plain strings, so the first iteration raises `AttributeError` and no
plan item is ever produced for a non-empty list. -/
def build_plan : Nat → List TriagedVulnerability → Except String (List PlanItem)
  | _, [] => Except.ok []
  | i, v :: rest => do
    let prioridad_value ← pyStrValue v.prioridad
    let severidad_value ← pyStrValue v.severidad_triage
    let restItems ← build_plan (i + 1) rest
    let item : PlanItem :=
      { orden := i
        vulnerabilidad_id := v.id_vulnerabilidad
        nombre := v.nombre
        prioridad := prioridad_value
        severidad := severidad_value
        tiempo_estimado := estimate_remediation_time v.prioridad
        recursos_necesarios := extract_resources_from_recommendations v.recomendaciones
        acciones_principales := extract_main_actions v.recomendaciones }
    Except.ok (item :: restItems)

/-- `TriageService.generate_remediation_plan` (`triage_service.py`,
lines 175-199).  CPython's `sorted(..., key=...)` computes every key before
comparing, so `priority_order.index` raises `ValueError` exactly when some
vulnerability has a non-canonical priority; otherwise the loop body raises
on its first `.value` access whenever the sorted list is non-empty. -/
def generate_remediation_plan (vulns : List TriagedVulnerability) :
    Except String (List PlanItem) :=
  if vulns.all (fun v => canonicalPriorities.contains v.prioridad) then
    build_plan 1 (stableSortByKey (fun v => priority_index v.prioridad) vulns)
  else
    Except.error "ValueError: prioridad is not in priority_order"

end TriageService

/-- Scenario-4 input with priority P2. -/
def planVulnP2 : TriagedVulnerability :=
  { infoVulnOne with id_vulnerabilidad := "A", prioridad := "P2" }

/-- Scenario-4 input with priority P0. -/
def planVulnP0 : TriagedVulnerability :=
  { infoVulnOne with id_vulnerabilidad := "B", prioridad := "P0" }

/-- Scenario-4 input with priority P1. -/
def planVulnP1 : TriagedVulnerability :=
  { infoVulnOne with id_vulnerabilidad := "C", prioridad := "P1" }

/-- Claim C9 (code bug): for canonical priorities the source never returns
the claimed stably sorted plan — each plan item evaluates
`vuln.prioridad.value` and `vuln.severidad_triage.value` on plain-string
fields, so `generate_remediation_plan` raises `AttributeError` for every
non-empty batch (including the scenario batch [P2, P0, P1]); only the
empty batch returns, with an empty plan. -/
theorem c9_remediation_plan_raises_on_value (vulns : List TriagedVulnerability)
    (hcanon : ∀ v ∈ vulns, v.prioridad ∈ canonicalPriorities) (hne : vulns ≠ []) :
    TriageService.generate_remediation_plan vulns =
      Except.error (pyAttributeError "str" "value") ∧
    TriageService.generate_remediation_plan [planVulnP2, planVulnP0, planVulnP1] =
      Except.error (pyAttributeError "str" "value") ∧
    TriageService.generate_remediation_plan [] = Except.ok [] := by
  refine ⟨?_, ?_, rfl⟩
  · unfold TriageService.generate_remediation_plan
    rw [if_pos]
    · have hlen := stableSortByKey_length
        (fun v => TriageService.priority_index v.prioridad) vulns
      cases hsort : stableSortByKey (fun v => TriageService.priority_index v.prioridad) vulns with
      | nil =>
        exfalso
        rw [hsort] at hlen
        exact hne (List.length_eq_zero.mp hlen.symm)
      | cons x rest => rfl
    · rw [List.all_eq_true]
      intro v hv
      simpa using hcanon v hv
  · rfl

/-- Witness for claim C9 at the concrete scenario batch [P2, P0, P1]. -/
theorem c9_remediation_plan_raises_on_value_witness :
    TriageService.generate_remediation_plan [planVulnP2, planVulnP0, planVulnP1] =
      Except.error (pyAttributeError "str" "value") ∧
    TriageService.generate_remediation_plan [] = Except.ok [] :=
  ⟨(c9_remediation_plan_raises_on_value [planVulnP2, planVulnP0, planVulnP1]
      (by decide) (List.cons_ne_nil _ _)).1,
    (c9_remediation_plan_raises_on_value [planVulnP2, planVulnP0, planVulnP1]
      (by decide) (List.cons_ne_nil _ _)).2.2⟩

/-- A raw finding dictionary (`hallazgo`) as consumed by the triage agent
(`triage_agent.py`): a JSON object whose fields are read with `.get`,
supporting the several alternate key names of the multi-format inputs. -/
structure Hallazgo where
  id : Option String
  nombre : Option String
  categoria : Option String
  descripcion : Option String
  detalles : Option String
  severidad : Option String
  impacto : Option String
  detailed_proof_of_concept : Option String
  evidencia : Option String
  payload_usado : Option String
  respuesta_servidor : Option String
  estado : Option String

/-- One evidence object of the parsed LLM triage response
(`triage_agent.py`, lines 281-290). -/
structure EvidenceData where
  tipo_evidencia : Option String
  descripcion : Option String
  contenido : Option String
  ubicacion : Option String
  criticidad_evidencia : Option String

/-- One recommendation object of the parsed LLM triage response
(`triage_agent.py`, lines 293-302). -/
structure RecommendationData where
  tipo : Option String
  descripcion : Option String
  pasos_implementacion : Option (List String)
  recursos_necesarios : Option (List String)
  impacto_implementacion : Option String

/-- The parsed JSON object of an LLM triage response
(`triage_agent.py`, lines 277-329): every field is optional and read with
`.get(key, default)`. -/
structure TriageData where
  vulnerabilidad_id : Option String
  nombre : Option String
  severidad_triage : Option String
  justificacion_severidad : Option String
  prioridad : Option String
  justificacion_prioridad : Option String
  impacto_real : Option String
  probabilidad_explotacion : Option String
  evidencias : Option (List EvidenceData)
  recomendaciones : Option (List RecommendationData)
  confianza_analisis : Option ℚ
  requiere_validacion_manual : Option Bool
  notas_adicionales : Option String

/-- The multi-format security-report dictionary handed to
`TriageAgent.analyze_vulnerabilities` (`triage_agent.py`, lines 127-141):
the finding list may live under several alternate keys, and
`documento.titulo` is read for the report origin. -/
structure SecurityReportDict where
  hallazgos_principales : List Hallazgo
  analisis_pdf_hallazgos : List Hallazgo
  vulnerabilidades : List Hallazgo
  findings : List Hallazgo
  documento_titulo : Option String

namespace TriageAgent

/-- `TriageAgent._create_triaged_vulnerability` (`triage_agent.py`,
lines 277-329).  `freshId` stands for the generated `uuid.uuid4()` string
and `now` for `datetime.now()`.  The identifier chain embeds the Python
truthiness of `original.get('id') or triage_data.get('vulnerabilidad_id')
or str(uuid.uuid4())`. -/
def create_triaged_vulnerability (d : TriageData) (original : Hallazgo)
    (freshId : String) (now : Int) : TriagedVulnerability :=
  { id_vulnerabilidad := (pyTruthy original.id).getD ((pyTruthy d.vulnerabilidad_id).getD freshId)
    nombre := d.nombre.getD (original.nombre.getD (original.categoria.getD "Vulnerabilidad sin nombre"))
    descripcion_original := original.descripcion.getD ""
    severidad_original := original.severidad.getD "No especificada"
    severidad_triage := d.severidad_triage.getD "media"
    justificacion_severidad := d.justificacion_severidad.getD ""
    prioridad := d.prioridad.getD "P2"
    justificacion_prioridad := d.justificacion_prioridad.getD ""
    evidencias := (d.evidencias.getD []).map (fun e =>
      { tipo_evidencia := e.tipo_evidencia.getD "desconocido"
        descripcion := e.descripcion.getD ""
        contenido := e.contenido.getD ""
        ubicacion := e.ubicacion
        criticidad_evidencia := e.criticidad_evidencia.getD "media" })
    impacto_real := d.impacto_real.getD ""
    probabilidad_explotacion := d.probabilidad_explotacion.getD "media"
    recomendaciones := (d.recomendaciones.getD []).map (fun r =>
      { tipo := r.tipo.getD "correctiva"
        descripcion := r.descripcion.getD ""
        pasos_implementacion := r.pasos_implementacion.getD []
        recursos_necesarios := r.recursos_necesarios.getD []
        impacto_implementacion := r.impacto_implementacion.getD "medio" })
    fecha_triage := now
    confianza_analisis := d.confianza_analisis.getD (4 / 5)
    requiere_validacion_manual := d.requiere_validacion_manual.getD false
    notas_adicionales := d.notas_adicionales }

/-- `TriageAgent._create_fallback_vulnerability` (`triage_agent.py`,
lines 331-358): the low-confidence record substituted when the analysis of
one finding fails.  `freshId` stands for the generated
`vuln_{n}_{uuid.uuid4().hex[:8]}` string. -/
def create_fallback_vulnerability (h : Hallazgo) (vuln_number : Nat)
    (freshId : String) (now : Int) : TriagedVulnerability :=
  { id_vulnerabilidad := (pyTruthy h.id).getD freshId
    nombre := h.nombre.getD (h.categoria.getD s!"Vulnerabilidad {vuln_number}")
    descripcion_original := h.descripcion.getD (h.detalles.getD "")
    severidad_original := h.severidad.getD "No especificada"
    severidad_triage := "media"
    justificacion_severidad := "Análisis automático falló, requiere revisión manual"
    prioridad := "P2"
    justificacion_prioridad := "Prioridad asignada por defecto debido a error en análisis"
    evidencias := []
    impacto_real := "Requiere análisis manual"
    probabilidad_explotacion := "media"
    recomendaciones := []
    fecha_triage := now
    confianza_analisis := 1 / 10
    requiere_validacion_manual := true
    notas_adicionales := some "Error en análisis automático, requiere revisión manual" }

/-- `TriageAgent._triage_single_vulnerability` (`triage_agent.py`,
lines 166-184).  The oracle embeds the LLM call
(`self.llm.generate_response`) composed with `_parse_triage_response`: an
`Except.error` models either the LLM raising or a `JSONParsingError` on its
free-text response; the surrounding `try/except` turns any such failure
into the fallback record. -/
def triage_single_vulnerability (oracle : Hallazgo → Nat → Except String TriageData)
    (h : Hallazgo) (vuln_number : Nat) (freshId : String) (now : Int) :
    TriagedVulnerability :=
  match oracle h vuln_number with
  | Except.ok d => create_triaged_vulnerability d h freshId now
  | Except.error _ => create_fallback_vulnerability h vuln_number freshId now

/-- The `for i, hallazgo in enumerate(hallazgos)` loop of
`analyze_vulnerabilities` (`triage_agent.py`, lines 146-151), with
`vuln_number = i + 1`. -/
def triage_all (oracle : Hallazgo → Nat → Except String TriageData)
    (freshIds : Nat → String) (now : Int) : Nat → List Hallazgo → List TriagedVulnerability
  | _, [] => []
  | i, h :: rest =>
    triage_single_vulnerability oracle h (i + 1) (freshIds i) now ::
      triage_all oracle freshIds now (i + 1) rest

/-- The multi-format extraction chain of `analyze_vulnerabilities`
(`triage_agent.py`, lines 127-138): first non-empty list among
`hallazgos_principales`, `analisis_pdf.hallazgos_principales`,
`vulnerabilidades`, `findings`. -/
def extract_hallazgos (sr : SecurityReportDict) : List Hallazgo :=
  if !sr.hallazgos_principales.isEmpty then sr.hallazgos_principales
  else if !sr.analisis_pdf_hallazgos.isEmpty then sr.analisis_pdf_hallazgos
  else if !sr.vulnerabilidades.isEmpty then sr.vulnerabilidades
  else sr.findings

/-- One item of the agent-side remediation plan
(`triage_agent.py`, lines 458-467). -/
structure AgentPlanItem where
  orden : Nat
  vulnerabilidad : String
  prioridad : String
  severidad : String
  acciones_principales : List String
  requiere_validacion : Bool

/-- The `for i, vuln in enumerate(sorted_vulns)` loop of
`_generate_remediation_plan` (`triage_agent.py`, lines 457-468), which
tags items with `i + 1`. -/
def agent_build_plan : Nat → List TriagedVulnerability → List AgentPlanItem
  | _, [] => []
  | i, v :: rest =>
    { orden := i + 1
      vulnerabilidad := v.nombre
      prioridad := v.prioridad
      severidad := v.severidad_triage
      acciones_principales := (v.recomendaciones.map (fun r => r.descripcion)).take 3
      requiere_validacion := v.requiere_validacion_manual } :: agent_build_plan (i + 1) rest

/-- `TriageAgent._generate_remediation_plan` (`triage_agent.py`,
lines 451-469): stable sort by `priority_order.get(v.prioridad, 5)` — the
same index table as the domain service, with the total default 5. -/
def generate_remediation_plan (vulns : List TriagedVulnerability) : List AgentPlanItem :=
  agent_build_plan 0 (stableSortByKey (fun v => TriageService.priority_index v.prioridad) vulns)

/-- `TriageAgent._generate_executive_summary` (`triage_agent.py`,
lines 437-449). -/
def generate_executive_summary (vulns : List TriagedVulnerability)
    (sevDist prioDist : List (String × Nat)) : String :=
  let total := vulns.length
  let criticas := dictGet sevDist "crítica"
  let altas := dictGet sevDist "alta"
  let urgentes := dictGet prioDist "P0" + dictGet prioDist "P1"
  s!"Análisis de triage completado para {total} vulnerabilidades identificadas. \nSe encontraron {criticas} vulnerabilidades críticas y {altas} de severidad alta. \n{urgentes} vulnerabilidades requieren atención inmediata o urgente (P0-P1). \nEl análisis se basó en evidencia real y contexto del entorno para asignar severidades y prioridades precisas."

/-- `TriageAgent._generate_general_recommendations` (`triage_agent.py`,
lines 471-488). -/
def generate_general_recommendations (vulns : List TriagedVulnerability) : List String :=
  let base := ["Implementar un proceso de revisión de seguridad en el ciclo de desarrollo",
    "Establecer monitoreo continuo de vulnerabilidades",
    "Capacitar al equipo de desarrollo en prácticas de codificación segura"]
  let critical_count := (vulns.filter (fun v => v.severidad_triage == "crítica")).length
  let base2 :=
    if critical_count > 0 then
      s!"URGENTE: Abordar inmediatamente las {critical_count} vulnerabilidades críticas identificadas" :: base
    else base
  let manual_count := (vulns.filter (fun v => v.requiere_validacion_manual)).length
  if manual_count > 0 then
    base2 ++ [s!"Realizar validación manual de {manual_count} vulnerabilidades que requieren revisión adicional"]
  else base2

end TriageAgent

/-- The `TriageReport` aggregate (`entities.py`, lines 118-143;
field-for-field identical to `models/triage.py`).  The two distribution
dicts are association lists; `configuracion_triage` keeps the constant
configuration strings of the source with the analysis timestamp as a
parameter-derived string. -/
structure TriageReport where
  id_reporte : String
  fecha_generacion : Int
  reporte_origen : String
  resumen_triage : String
  total_vulnerabilidades : Nat
  distribucion_severidad : List (String × Nat)
  distribucion_prioridad : List (String × Nat)
  vulnerabilidades : List TriagedVulnerability
  recomendaciones_generales : List String
  plan_remediacion : List TriageAgent.AgentPlanItem
  riesgo_general : String
  score_riesgo : ℚ
  version_agente : String
  configuracion_triage : List (String × String)

namespace TriageAgent

/-- `TriageAgent._generate_triage_report` (`triage_agent.py`,
lines 360-412): builds both distributions by `dist[k] = dist.get(k, 0) + 1`
over dicts initialized with the five canonical keys at 0, computes the risk
score and coarse risk level, and assembles the report. -/
def generate_triage_report (sr : SecurityReportDict)
    (vulns : List TriagedVulnerability) (reportId : String) (now : Int) : TriageReport :=
  let severidad_dist := vulns.foldl (fun d v => dictIncr d v.severidad_triage)
    [("crítica", 0), ("alta", 0), ("media", 0), ("baja", 0), ("informativa", 0)]
  let prioridad_dist := vulns.foldl (fun d v => dictIncr d v.prioridad)
    [("P0", 0), ("P1", 0), ("P2", 0), ("P3", 0), ("P4", 0)]
  let risk_score := calculate_risk_score vulns
  let riesgo_general :=
    if 8 ≤ risk_score then "crítico"
    else if 6 ≤ risk_score then "alto"
    else if 4 ≤ risk_score then "medio"
    else "bajo"
  { id_reporte := reportId
    fecha_generacion := now
    reporte_origen := sr.documento_titulo.getD "Reporte desconocido"
    resumen_triage := generate_executive_summary vulns severidad_dist prioridad_dist
    total_vulnerabilidades := vulns.length
    distribucion_severidad := severidad_dist
    distribucion_prioridad := prioridad_dist
    vulnerabilidades := vulns
    recomendaciones_generales := generate_general_recommendations vulns
    plan_remediacion := generate_remediation_plan vulns
    riesgo_general := riesgo_general
    score_riesgo := risk_score
    version_agente := "1.0.0"
    configuracion_triage := [("criterios_severidad", "Basado en evidencia real e impacto"),
      ("criterios_prioridad", "P0-P4 basado en urgencia y impacto"),
      ("fecha_analisis", toString now)] }

/-- `TriageAgent.analyze_vulnerabilities` (`triage_agent.py`,
lines 122-164): extract the findings under their alternate keys, raise
`ReportAnalysisError` if none, otherwise triage each finding independently
and assemble the report. -/
def analyze_vulnerabilities (oracle : Hallazgo → Nat → Except String TriageData)
    (freshIds : Nat → String) (now : Int) (reportId : String)
    (sr : SecurityReportDict) : Except String TriageReport :=
  if (extract_hallazgos sr).isEmpty then
    Except.error "ReportAnalysisError: No se encontraron vulnerabilidades en el reporte"
  else
    Except.ok (generate_triage_report sr
      (triage_all oracle freshIds now 0 (extract_hallazgos sr)) reportId now)

end TriageAgent

/-- A security-report dictionary carrying exactly the given findings under
the primary key `hallazgos_principales`. -/
def securityReportOfHallazgos (hs : List Hallazgo) : SecurityReportDict :=
  { hallazgos_principales := hs
    analisis_pdf_hallazgos := []
    vulnerabilidades := []
    findings := []
    documento_titulo := none }

theorem sumValues_dictIncr (d : List (String × Nat)) (k : String) :
    sumValues (dictIncr d k) = sumValues d + 1 := by
  induction d with
  | nil => rfl
  | cons p rest ih =>
    by_cases hpk : (p.1 == k) = true
    · simp [dictIncr, dictSet, dictGet, sumValues, List.find?, hpk]
      omega
    · have hpk2 : (p.1 == k) = false := by simpa using hpk
      simp only [dictIncr, dictGet, List.find?, hpk2] at ih ⊢
      simp only [dictSet, hpk2, Bool.false_eq_true, if_false]
      simp only [sumValues, List.map_cons, List.sum_cons] at ih ⊢
      omega

theorem sumValues_fold_dictIncr (f : TriagedVulnerability → String)
    (vulns : List TriagedVulnerability) (init : List (String × Nat)) :
    sumValues (vulns.foldl (fun d v => dictIncr d (f v)) init) =
      sumValues init + vulns.length := by
  induction vulns generalizing init with
  | nil => simp
  | cons v rest ih =>
    rw [List.foldl_cons, ih, sumValues_dictIncr]
    simp only [List.length_cons]
    omega

/-- The triage summary object consumed by
`ReportValidationService._validate_triage_summary`
(`report_validation_service.py`, lines 208-233).  The validation service
reads exactly these six count attributes; counts are integers (negative
values are explicitly checked for). -/
structure TriageSummary where
  total_vulnerabilities : Int
  critical_count : Int
  high_count : Int
  medium_count : Int
  low_count : Int
  info_count : Int

namespace ReportValidationService

/-- The count-mismatch error message of `_validate_triage_summary`
(`report_validation_service.py`, line 217), naming both numbers. -/
def count_mismatch_message (s : TriageSummary) : String :=
  s!"Inconsistencia en conteos: total ({s.total_vulnerabilities}) != suma de severidades ({s.critical_count + s.high_count + s.medium_count + s.low_count + s.info_count})"

/-- The negative-count error message of `_validate_triage_summary`
(`report_validation_service.py`, line 231). -/
def negative_count_message (name : String) : String :=
  s!"El conteo de vulnerabilidades {name} no puede ser negativo"

/-- `ReportValidationService._validate_triage_summary`
(`report_validation_service.py`, lines 208-233): the count-mismatch check
followed by the negativity loop over the six named counts in dict insertion
order. -/
def validate_triage_summary (s : TriageSummary) : List String :=
  (if s.total_vulnerabilities ≠
      s.critical_count + s.high_count + s.medium_count + s.low_count + s.info_count then
    [count_mismatch_message s]
  else []) ++
  ([("total", s.total_vulnerabilities), ("críticas", s.critical_count),
      ("altas", s.high_count), ("medias", s.medium_count), ("bajas", s.low_count),
      ("informativas", s.info_count)].foldr
    (fun p acc => if p.2 < 0 then negative_count_message p.1 :: acc else acc)
    ([] : List String))

end ReportValidationService

theorem count_mismatch_message_head (s : TriageSummary) :
    (ReportValidationService.count_mismatch_message s).data.head? = some 'I' := by
  unfold ReportValidationService.count_mismatch_message
  rfl

theorem negative_count_message_head (name : String) :
    (ReportValidationService.negative_count_message name).data.head? = some 'E' := by
  unfold ReportValidationService.negative_count_message
  rfl

theorem mem_negative_fold_head (l : List (String × Int)) (x : String)
    (hx : x ∈ l.foldr
      (fun p acc => if p.2 < 0 then ReportValidationService.negative_count_message p.1 :: acc else acc)
      ([] : List String)) :
    x.data.head? = some 'E' := by
  induction l with
  | nil => cases hx
  | cons p rest ih =>
    rw [List.foldr_cons] at hx
    by_cases hp : p.2 < 0
    · rw [if_pos hp] at hx
      rcases List.mem_cons.mp hx with hx | hx
      · rw [hx]
        exact negative_count_message_head p.1
      · exact ih hx
    · rw [if_neg hp] at hx
      exact ih hx

/-- Claim C3: the generated triage report counts every vulnerability of the
batch exactly once — `total_vulnerabilidades = N` and both distribution
dicts sum to `N` — and the validation service's summary check contains the
count-mismatch error (naming both numbers) exactly when the per-severity
counts do not sum to the declared total. -/
theorem c3_distribution_sums_and_mismatch_check (sr : SecurityReportDict)
    (vulns : List TriagedVulnerability) (reportId : String) (now : Int) :
    (TriageAgent.generate_triage_report sr vulns reportId now).total_vulnerabilidades =
      vulns.length ∧
    sumValues (TriageAgent.generate_triage_report sr vulns reportId now).distribucion_severidad =
      vulns.length ∧
    sumValues (TriageAgent.generate_triage_report sr vulns reportId now).distribucion_prioridad =
      vulns.length ∧
    ∀ s : TriageSummary,
      (ReportValidationService.count_mismatch_message s ∈
          ReportValidationService.validate_triage_summary s ↔
        s.total_vulnerabilities ≠
          s.critical_count + s.high_count + s.medium_count + s.low_count + s.info_count) := by
  refine ⟨rfl, ?_, ?_, ?_⟩
  · show sumValues (vulns.foldl (fun d v => dictIncr d v.severidad_triage)
      [("crítica", 0), ("alta", 0), ("media", 0), ("baja", 0), ("informativa", 0)]) = vulns.length
    rw [sumValues_fold_dictIncr]
    simp [sumValues]
  · show sumValues (vulns.foldl (fun d v => dictIncr d v.prioridad)
      [("P0", 0), ("P1", 0), ("P2", 0), ("P3", 0), ("P4", 0)]) = vulns.length
    rw [sumValues_fold_dictIncr]
    simp [sumValues]
  · intro s
    unfold ReportValidationService.validate_triage_summary
    constructor
    · intro hmem heq
      rw [if_neg (by simpa using heq), List.nil_append] at hmem
      have h1 := mem_negative_fold_head _ _ hmem
      have h2 := count_mismatch_message_head s
      rw [h1] at h2
      cases h2
    · intro hne
      rw [if_pos hne]
      exact List.mem_append_left _ (List.mem_cons_self _ _)

theorem triage_all_length (oracle : Hallazgo → Nat → Except String TriageData)
    (freshIds : Nat → String) (now : Int) (start : Nat) (hs : List Hallazgo) :
    (TriageAgent.triage_all oracle freshIds now start hs).length = hs.length := by
  induction hs generalizing start with
  | nil => rfl
  | cons h rest ih => simp [TriageAgent.triage_all, ih]

theorem triage_all_getElem (oracle : Hallazgo → Nat → Except String TriageData)
    (freshIds : Nat → String) (now : Int) :
    ∀ (start i : Nat) (hs : List Hallazgo) (h : Hallazgo), hs[i]? = some h →
      (TriageAgent.triage_all oracle freshIds now start hs)[i]? =
        some (TriageAgent.triage_single_vulnerability oracle h (start + i + 1)
          (freshIds (start + i)) now) := by
  intro start i hs
  induction hs generalizing start i with
  | nil =>
    intro h hh
    simp at hh
  | cons h0 rest ih =>
    intro h hh
    cases i with
    | zero =>
      simp only [List.getElem?_cons_zero, Option.some.injEq] at hh
      subst hh
      simp [TriageAgent.triage_all]
    | succ j =>
      simp only [List.getElem?_cons_succ] at hh
      have hrec := ih (start + 1) j h hh
      have harith1 : start + 1 + j = start + (j + 1) := by omega
      rw [harith1] at hrec
      simpa [TriageAgent.triage_all] using hrec

/-- Claim C4: `analyze_vulnerabilities` never aborts the batch on per-item
failures — for a non-empty finding list it returns a report with exactly
one entry per input finding, and every finding whose LLM call or JSON parse
fails is replaced by the fallback record, which carries
`confianza_analisis = 0.1` and `requiere_validacion_manual = True`. -/
theorem c4_per_item_failure_fallback (oracle : Hallazgo → Nat → Except String TriageData)
    (freshIds : Nat → String) (now : Int) (reportId : String)
    (hs : List Hallazgo) (hne : hs ≠ []) :
    TriageAgent.analyze_vulnerabilities oracle freshIds now reportId
        (securityReportOfHallazgos hs) =
      Except.ok (TriageAgent.generate_triage_report (securityReportOfHallazgos hs)
        (TriageAgent.triage_all oracle freshIds now 0 hs) reportId now) ∧
    (TriageAgent.generate_triage_report (securityReportOfHallazgos hs)
        (TriageAgent.triage_all oracle freshIds now 0 hs) reportId now).vulnerabilidades.length =
      hs.length ∧
    (∀ (i : Nat) (h : Hallazgo) (e : String), hs[i]? = some h →
      oracle h (i + 1) = Except.error e →
      (TriageAgent.generate_triage_report (securityReportOfHallazgos hs)
          (TriageAgent.triage_all oracle freshIds now 0 hs) reportId now).vulnerabilidades[i]? =
        some (TriageAgent.create_fallback_vulnerability h (i + 1) (freshIds i) now)) ∧
    (∀ (h : Hallazgo) (n : Nat) (fid : String) (t : Int),
      (TriageAgent.create_fallback_vulnerability h n fid t).confianza_analisis = 1 / 10 ∧
      (TriageAgent.create_fallback_vulnerability h n fid t).requiere_validacion_manual = true) := by
  have hie : hs.isEmpty = false := by
    cases hs with
    | nil => exact absurd rfl hne
    | cons a b => rfl
  have hext : TriageAgent.extract_hallazgos (securityReportOfHallazgos hs) = hs := by
    unfold TriageAgent.extract_hallazgos securityReportOfHallazgos
    simp [hie]
  have hvulns : (TriageAgent.generate_triage_report (securityReportOfHallazgos hs)
      (TriageAgent.triage_all oracle freshIds now 0 hs) reportId now).vulnerabilidades =
      TriageAgent.triage_all oracle freshIds now 0 hs := rfl
  refine ⟨?_, ?_, ?_, ?_⟩
  · unfold TriageAgent.analyze_vulnerabilities
    rw [hext, hie]
    simp
  · rw [hvulns, triage_all_length]
  · intro i h e hget horacle
    rw [hvulns, triage_all_getElem oracle freshIds now 0 i hs h hget]
    simp only [Nat.zero_add]
    unfold TriageAgent.triage_single_vulnerability
    rw [horacle]
  · intro h n fid t
    exact ⟨rfl, rfl⟩

/-- Concrete finding used by the C4 witness and the C2 counterexample. -/
def hallazgoSQLi : Hallazgo :=
  { id := none, nombre := some "SQL Injection en login", categoria := none
    descripcion := some "Inyección SQL en el formulario de login que permite evadir la autenticación"
    detalles := none, severidad := some "alta", impacto := none
    detailed_proof_of_concept := none, evidencia := none
    payload_usado := none, respuesta_servidor := none, estado := none }

/-- Second concrete finding for the C4 witness. -/
def hallazgoXSS : Hallazgo :=
  { id := none, nombre := some "XSS reflejado", categoria := none
    descripcion := some "XSS reflejado en el parámetro de búsqueda"
    detalles := none, severidad := some "media", impacto := none
    detailed_proof_of_concept := none, evidencia := none
    payload_usado := none, respuesta_servidor := none, estado := none }

/-- A well-formed parsed triage response with canonical severity/priority. -/
def triageDataAlta : TriageData :=
  { vulnerabilidad_id := none, nombre := none, severidad_triage := some "alta"
    justificacion_severidad := none, prioridad := some "P1"
    justificacion_prioridad := none, impacto_real := none
    probabilidad_explotacion := none, evidencias := none, recomendaciones := none
    confianza_analisis := some (9 / 10), requiere_validacion_manual := some false
    notas_adicionales := none }

/-- Oracle for the C4 witness: the first finding's JSON parse fails, the
second finding's LLM round-trip succeeds. -/
def c4Oracle : Hallazgo → Nat → Except String TriageData := fun _ n =>
  if n = 1 then Except.error "JSONParsingError: No se encontró JSON válido en la respuesta"
  else Except.ok triageDataAlta

/-- Fresh-identifier supply standing for the generated uuid strings. -/
def mkFresh : Nat → String := fun i => s!"vuln_{i + 1}_demo"

/-- Witness for claim C4 on the concrete two-finding batch whose first item
fails to parse. -/
theorem c4_per_item_failure_fallback_witness :
    TriageAgent.analyze_vulnerabilities c4Oracle mkFresh 0 "triage_demo"
        (securityReportOfHallazgos [hallazgoSQLi, hallazgoXSS]) =
      Except.ok (TriageAgent.generate_triage_report
        (securityReportOfHallazgos [hallazgoSQLi, hallazgoXSS])
        (TriageAgent.triage_all c4Oracle mkFresh 0 0 [hallazgoSQLi, hallazgoXSS])
        "triage_demo" 0) ∧
    (TriageAgent.generate_triage_report (securityReportOfHallazgos [hallazgoSQLi, hallazgoXSS])
        (TriageAgent.triage_all c4Oracle mkFresh 0 0 [hallazgoSQLi, hallazgoXSS])
        "triage_demo" 0).vulnerabilidades.length = 2 ∧
    (TriageAgent.generate_triage_report (securityReportOfHallazgos [hallazgoSQLi, hallazgoXSS])
        (TriageAgent.triage_all c4Oracle mkFresh 0 0 [hallazgoSQLi, hallazgoXSS])
        "triage_demo" 0).vulnerabilidades[0]? =
      some (TriageAgent.create_fallback_vulnerability hallazgoSQLi 1 (mkFresh 0) 0) ∧
    (TriageAgent.create_fallback_vulnerability hallazgoSQLi 1 (mkFresh 0) 0).confianza_analisis =
      1 / 10 ∧
    (TriageAgent.create_fallback_vulnerability hallazgoSQLi 1
      (mkFresh 0) 0).requiere_validacion_manual = true :=
  ⟨(c4_per_item_failure_fallback c4Oracle mkFresh 0 "triage_demo"
      [hallazgoSQLi, hallazgoXSS] (List.cons_ne_nil _ _)).1,
    (c4_per_item_failure_fallback c4Oracle mkFresh 0 "triage_demo"
      [hallazgoSQLi, hallazgoXSS] (List.cons_ne_nil _ _)).2.1,
    (c4_per_item_failure_fallback c4Oracle mkFresh 0 "triage_demo"
      [hallazgoSQLi, hallazgoXSS] (List.cons_ne_nil _ _)).2.2.1 0 hallazgoSQLi
      "JSONParsingError: No se encontró JSON válido en la respuesta" rfl rfl,
    ((c4_per_item_failure_fallback c4Oracle mkFresh 0 "triage_demo"
      [hallazgoSQLi, hallazgoXSS] (List.cons_ne_nil _ _)).2.2.2 hallazgoSQLi 1
      (mkFresh 0) 0).1,
    ((c4_per_item_failure_fallback c4Oracle mkFresh 0 "triage_demo"
      [hallazgoSQLi, hallazgoXSS] (List.cons_ne_nil _ _)).2.2.2 hallazgoSQLi 1
      (mkFresh 0) 0).2⟩

/-- A parsed triage response carrying raw, non-canonical model text in its
severity and priority fields — exactly what an LLM may emit. -/
def triageDataRaw : TriageData :=
  { vulnerabilidad_id := none, nombre := none, severidad_triage := some "HIGH RISK!!"
    justificacion_severidad := none, prioridad := some "URGENT"
    justificacion_prioridad := none, impacto_real := none
    probabilidad_explotacion := none, evidencias := none, recomendaciones := none
    confianza_analisis := none, requiere_validacion_manual := none
    notas_adicionales := none }

/-- Oracle whose parsed response carries the raw model text above. -/
def c2RawOracle : Hallazgo → Nat → Except String TriageData :=
  fun _ _ => Except.ok triageDataRaw

/-- Counterexample to claim C2 as stated: a triage report produced by
`analyze_vulnerabilities` whose vulnerability carries the raw model strings
"HIGH RISK!!" and "URGENT" — neither in its canonical vocabulary — because
`_create_triaged_vulnerability` propagates the parsed values without any
normalization and the `entities.py` model does not validate them. -/
theorem c2_counterexample_raw_text_propagates :
    (TriageAgent.analyze_vulnerabilities c2RawOracle mkFresh 0 "triage_demo"
        (securityReportOfHallazgos [hallazgoSQLi])).map
      (fun r => r.vulnerabilidades.map (fun v => (v.severidad_triage, v.prioridad))) =
        Except.ok [("HIGH RISK!!", "URGENT")] ∧
    "HIGH RISK!!" ∉ canonicalSeverities ∧ "URGENT" ∉ canonicalPriorities :=
  ⟨rfl, by decide, by decide⟩

theorem triage_all_canonical (oracle : Hallazgo → Nat → Except String TriageData)
    (freshIds : Nat → String) (now : Int)
    (hcanon : ∀ (h : Hallazgo) (n : Nat) (d : TriageData), oracle h n = Except.ok d →
      d.severidad_triage.getD "media" ∈ canonicalSeverities ∧
      d.prioridad.getD "P2" ∈ canonicalPriorities) :
    ∀ (start : Nat) (hs : List Hallazgo) (v : TriagedVulnerability),
      v ∈ TriageAgent.triage_all oracle freshIds now start hs →
      v.severidad_triage ∈ canonicalSeverities ∧ v.prioridad ∈ canonicalPriorities := by
  intro start hs
  induction hs generalizing start with
  | nil =>
    intro v hv
    cases hv
  | cons h rest ih =>
    intro v hv
    rcases List.mem_cons.mp hv with hv | hv
    · subst hv
      unfold TriageAgent.triage_single_vulnerability
      cases horacle : oracle h (start + 1) with
      | ok d =>
        simp only [horacle]
        exact ⟨(hcanon h (start + 1) d horacle).1, (hcanon h (start + 1) d horacle).2⟩
      | error e =>
        simp only [horacle]
        refine ⟨?_, ?_⟩
        · show "media" ∈ canonicalSeverities
          decide
        · show "P2" ∈ canonicalPriorities
          decide
    · exact ih (start + 1) v hv

/-- Claim C2 as amended: severity and priority of each vulnerability in the
produced report lie in the canonical vocabularies provided every
successfully parsed LLM response carries canonical-or-absent
`severidad_triage`/`prioridad` values (absent fields default to "media" and
"P2", and failed items fall back to "media"/"P2"); when the parsed response
carries other text, it is propagated unchanged — no normalization layer
exists in the code. -/
theorem c2_amended_canonical_only_if_model_canonical
    (oracle : Hallazgo → Nat → Except String TriageData)
    (freshIds : Nat → String) (now : Int) (reportId : String)
    (sr : SecurityReportDict) (report : TriageReport)
    (hok : TriageAgent.analyze_vulnerabilities oracle freshIds now reportId sr =
      Except.ok report)
    (hcanon : ∀ (h : Hallazgo) (n : Nat) (d : TriageData), oracle h n = Except.ok d →
      d.severidad_triage.getD "media" ∈ canonicalSeverities ∧
      d.prioridad.getD "P2" ∈ canonicalPriorities) :
    ∀ v ∈ report.vulnerabilidades,
      v.severidad_triage ∈ canonicalSeverities ∧ v.prioridad ∈ canonicalPriorities := by
  unfold TriageAgent.analyze_vulnerabilities at hok
  split at hok
  · cases hok
  · injection hok with hok2
    subst hok2
    intro v hv
    exact triage_all_canonical oracle freshIds now hcanon 0 _ v hv

/-- Oracle whose parsed response is canonical; used by the C2 witness. -/
def c2GoodOracle : Hallazgo → Nat → Except String TriageData :=
  fun _ _ => Except.ok triageDataAlta

/-- Witness for the amended claim C2 at a concrete canonical response. -/
theorem c2_amended_canonical_only_if_model_canonical_witness :
    (TriageAgent.create_triaged_vulnerability triageDataAlta hallazgoSQLi
        (mkFresh 0) 0).severidad_triage ∈ canonicalSeverities ∧
    (TriageAgent.create_triaged_vulnerability triageDataAlta hallazgoSQLi
        (mkFresh 0) 0).prioridad ∈ canonicalPriorities :=
  c2_amended_canonical_only_if_model_canonical c2GoodOracle mkFresh 0 "triage_demo"
    (securityReportOfHallazgos [hallazgoSQLi])
    (TriageAgent.generate_triage_report (securityReportOfHallazgos [hallazgoSQLi])
      (TriageAgent.triage_all c2GoodOracle mkFresh 0 0 [hallazgoSQLi]) "triage_demo" 0)
    rfl
    (fun h n d hd => by
      have hd2 : triageDataAlta = d := by injection hd
      subst hd2
      exact ⟨by decide, by decide⟩)
    (TriageAgent.create_triaged_vulnerability triageDataAlta hallazgoSQLi (mkFresh 0) 0)
    (List.mem_singleton.mpr rfl)

/-- `DocumentMetadata` (`models/document.py`): the five fields of the class.
There is no `fecha_creacion` field. -/
structure DocumentMetadata where
  titulo : String
  fecha : String
  autor : String
  tipo_documento : String
  numero_paginas : Int

/-- The field names of `DocumentMetadata`, transcribed from
`models/document.py`. -/
def documentMetadataFields : List String :=
  ["titulo", "fecha", "autor", "tipo_documento", "numero_paginas"]

/-- `Finding` (`models/security.py`). -/
structure Finding where
  nombre : String
  categoria : String
  descripcion : String
  severidad : String
  impacto : String
  detailed_proof_of_concept : Option String

/-- `Recommendation` (`models/security.py`): a pydantic model, not a
string — it has no `strip` method. -/
structure Recommendation where
  prioridad : String
  accion : String
  descripcion : String

/-- `Credentials` (`models/security.py`). -/
structure Credentials where
  usuario : String
  contrasena : String

/-- `TechnicalData` (`models/security.py`): four fields; there is no
`herramientas_utilizadas` field. -/
structure TechnicalData where
  entorno : String
  endpoints_pruebas : List String
  credenciales_utilizadas : List (String × Credentials)
  observaciones_abiertas : List String

/-- The field names of `TechnicalData`, transcribed from
`models/security.py`. -/
def technicalDataFields : List String :=
  ["entorno", "endpoints_pruebas", "credenciales_utilizadas", "observaciones_abiertas"]

/-- `AdditionalInfo` (`models/security.py`). -/
structure AdditionalInfo where
  nota : String
  recomendaciones_adicionales : List String

/-- `SecurityReport` (`models/security.py`). -/
structure SecurityReport where
  documento : DocumentMetadata
  resumen_ejecutivo : String
  hallazgos_principales : List Finding
  recomendaciones : List Recommendation
  datos_tecnicos : TechnicalData
  conclusiones : String
  informacion_adicional : AdditionalInfo

/-- Embedding of a Python attribute lookup against the transcribed
field-name (or method-name) list of a class: succeeds exactly when the
class defines the attribute, otherwise raises `AttributeError`. -/
def requireAttribute (fields : List String) (cls attr : String) : Except String Unit :=
  if attr ∈ fields then Except.ok () else Except.error (pyAttributeError cls attr)

namespace ReportValidationService

/-- `ReportValidationService._validate_document_metadata`
(`report_validation_service.py`, lines 79-103).  The title and author
checks run and collect errors; line 94 then evaluates
`report.documento.fecha_creacion`, an attribute that `DocumentMetadata`
does not define, so the call raises and the collected errors (and the
remaining date/email checks) are discarded. -/
def validate_document_metadata (doc : DocumentMetadata) : Except String (List String) := do
  let collected :=
    (if doc.titulo = "" ∨ doc.titulo.trim = "" then ["El título del documento es obligatorio"]
     else if doc.titulo.trim.length < 5 then
       ["El título del documento debe tener al menos 5 caracteres"]
     else []) ++
    (if doc.autor = "" ∨ doc.autor.trim = "" then ["El autor del documento es obligatorio"]
     else [])
  requireAttribute documentMetadataFields "DocumentMetadata" "fecha_creacion"
  pure collected

/-- Per-finding checks of `_validate_findings`
(`report_validation_service.py`, lines 113-137). -/
def validate_finding_errors (i : Nat) (f : Finding) : List String :=
  (if f.nombre = "" ∨ f.nombre.trim = "" then [s!"Hallazgo {i}: El nombre es obligatorio"]
   else if f.nombre.trim.length < 3 then
     [s!"Hallazgo {i}: El nombre debe tener al menos 3 caracteres"]
   else []) ++
  (if f.descripcion = "" ∨ f.descripcion.trim = "" then
     [s!"Hallazgo {i}: La descripción es obligatoria"]
   else if f.descripcion.trim.length < 20 then
     [s!"Hallazgo {i}: La descripción debe tener al menos 20 caracteres"]
   else []) ++
  (if f.categoria = "" ∨ f.categoria.trim = "" then
     [s!"Hallazgo {i}: La categoría es obligatoria"]
   else []) ++
  (if pyLower f.severidad ∉ canonicalSeverities then
     [s!"Hallazgo {i}: Severidad {f.severidad} no es válida. Debe ser una de: crítica, alta, media, baja, informativa"]
   else []) ++
  (if f.impacto = "" ∨ f.impacto.trim = "" then [s!"Hallazgo {i}: El impacto es obligatorio"]
   else [])

/-- The `for i, finding in enumerate(findings, 1)` loop of
`_validate_findings`. -/
def validate_findings_loop : Nat → List Finding → List String
  | _, [] => []
  | i, f :: rest => validate_finding_errors i f ++ validate_findings_loop (i + 1) rest

/-- `ReportValidationService._validate_findings`
(`report_validation_service.py`, lines 105-139). -/
def validate_findings (findings : List Finding) : List String :=
  if findings.isEmpty then ["El reporte debe contener al menos un hallazgo"]
  else validate_findings_loop 1 findings

/-- `ReportValidationService._validate_recommendations`
(`report_validation_service.py`, lines 141-155).  The parameter is
annotated `List[str]` but `validate_security_report` passes
`report.recomendaciones`, a list of `Recommendation` pydantic models; for a
non-empty list the first loop iteration evaluates `rec.strip()` and raises
`AttributeError`, since `Recommendation` defines no `strip`. -/
def validate_recommendations (recs : List Recommendation) : Except String (List String) :=
  match recs with
  | [] => Except.ok ["El reporte debe contener al menos una recomendación"]
  | _ :: _ => Except.error (pyAttributeError "Recommendation" "strip")

/-- The `for i, endpoint in enumerate(..., 1)` loop of
`_validate_technical_data` (`report_validation_service.py`, lines 165-169),
parameterized by the URL and IP regex matchers. -/
def validate_endpoints_loop (urlMatch ipMatch : String → Bool) :
    Nat → List String → List String
  | _, [] => []
  | i, ep :: rest =>
    (if ep.trim = "" then [s!"Endpoint {i}: No puede estar vacío"]
     else if ¬ (urlMatch ep ∨ ipMatch ((ep.splitOn ":").headD "")) then
       [s!"Endpoint {i}: {ep} no tiene un formato válido de URL o IP"]
     else []) ++ validate_endpoints_loop urlMatch ipMatch (i + 1) rest

/-- `ReportValidationService._validate_technical_data`
(`report_validation_service.py`, lines 157-175).  After the endpoint
checks, line 172 evaluates `technical_data.herramientas_utilizadas`, an
attribute that `TechnicalData` does not define, so the call raises. -/
def validate_technical_data (urlMatch ipMatch : String → Bool) (td : TechnicalData) :
    Except String (List String) := do
  let endpoint_errors :=
    if td.endpoints_pruebas.isEmpty then ["Debe especificar al menos un endpoint de prueba"]
    else validate_endpoints_loop urlMatch ipMatch 1 td.endpoints_pruebas
  requireAttribute technicalDataFields "TechnicalData" "herramientas_utilizadas"
  pure endpoint_errors

/-- The low-recommendation-count consistency message of
`_validate_report_consistency` (`report_validation_service.py`, line 260),
naming both counts. -/
def consistency_low_recommendations_message (recs findings : Nat) : String :=
  s!"Pocas recomendaciones ({recs}) para la cantidad de hallazgos ({findings})"

/-- `ReportValidationService._validate_report_consistency`
(`report_validation_service.py`, lines 251-267): flags fewer
recommendations than half the findings, and critical findings outnumbering
recommendations. -/
def validate_report_consistency (r : SecurityReport) : List String :=
  (if (r.recomendaciones.length : ℚ) < (r.hallazgos_principales.length : ℚ) * (1 / 2) then
    [consistency_low_recommendations_message r.recomendaciones.length
      r.hallazgos_principales.length]
  else []) ++
  (if ¬ (r.hallazgos_principales.filter (fun f => pyLower f.severidad == "crítica")).isEmpty ∧
      r.recomendaciones.length <
        (r.hallazgos_principales.filter (fun f => pyLower f.severidad == "crítica")).length then
    ["Los hallazgos críticos requieren recomendaciones específicas"]
  else [])

/-- `ReportValidationService.validate_security_report`
(`report_validation_service.py`, lines 42-59): run the five validators,
collect their error strings and return `(len(errors) == 0, errors)`.  An
`Except.error` models an exception escaping the call. -/
def validate_security_report (urlMatch ipMatch : String → Bool) (r : SecurityReport) :
    Except String (Bool × List String) := do
  let e1 ← validate_document_metadata r.documento
  let e2 := validate_findings r.hallazgos_principales
  let e3 ← validate_recommendations r.recomendaciones
  let e4 ← validate_technical_data urlMatch ipMatch r.datos_tecnicos
  let e5 := validate_report_consistency r
  let errors := e1 ++ e2 ++ e3 ++ e4 ++ e5
  pure (errors.isEmpty, errors)

end ReportValidationService

/-- Claim C5: contrary to the claim, `validate_security_report` cannot
return an `(is_valid, errors)` pair for any input: its very first
validator evaluates `report.documento.fecha_creacion`, an attribute absent
from `DocumentMetadata`, so every call raises `AttributeError`; with a
non-empty recommendation list `_validate_recommendations` would raise as
well (`rec.strip()` on a `Recommendation` model). -/
theorem c5_validate_security_report_always_raises :
    ("fecha_creacion" ∉ documentMetadataFields) ∧
    (∀ (urlMatch ipMatch : String → Bool) (r : SecurityReport),
      ReportValidationService.validate_security_report urlMatch ipMatch r =
        Except.error (pyAttributeError "DocumentMetadata" "fecha_creacion")) ∧
    (∀ (rec : Recommendation) (recs : List Recommendation),
      ReportValidationService.validate_recommendations (rec :: recs) =
        Except.error (pyAttributeError "Recommendation" "strip")) :=
  ⟨by decide, fun urlMatch ipMatch r => rfl, fun rec recs => rfl⟩

/-- Concrete document metadata for the C10 counterexample. -/
def docDemo : DocumentMetadata :=
  { titulo := "Informe de pruebas de seguridad", fecha := "2024-01-01"
    autor := "Equipo Ofensivo", tipo_documento := "pentest", numero_paginas := 10 }

/-- Concrete finding template for the C10 counterexample. -/
def findingDemo (n : String) : Finding :=
  { nombre := n, categoria := "inyección"
    descripcion := "Descripción suficientemente larga del hallazgo de seguridad"
    severidad := "alta", impacto := "alto", detailed_proof_of_concept := none }

/-- Concrete recommendation for the C10 counterexample. -/
def recDemo : Recommendation :=
  { prioridad := "alta", accion := "corregir"
    descripcion := "Sanitizar todas las entradas de usuario" }

/-- Concrete technical data for the C10 counterexample. -/
def tdDemo : TechnicalData :=
  { entorno := "staging"
    endpoints_pruebas := ["http://demo.local"]
    credenciales_utilizadas := []
    observaciones_abiertas := [] }

/-- Concrete additional info for the C10 counterexample. -/
def aiDemo : AdditionalInfo :=
  { nota := ""
    recomendaciones_adicionales := [] }

/-- A security report with 3 findings and 1 recommendation — fewer
recommendations than half the findings. -/
def c10Report : SecurityReport :=
  { documento := docDemo
    resumen_ejecutivo := "Resumen ejecutivo"
    hallazgos_principales := [findingDemo "Hallazgo A", findingDemo "Hallazgo B",
      findingDemo "Hallazgo C"]
    recomendaciones := [recDemo]
    datos_tecnicos := tdDemo
    conclusiones := "Conclusiones"
    informacion_adicional := aiDemo }

/-- Counterexample to claim C10 as stated: `c10Report` has 1 recommendation
for 3 findings (below half), yet `validate_security_report` does not return
`is_valid = False` with the consistency message — it does not return at
all, raising on the missing `fecha_creacion` attribute. -/
theorem c10_counterexample_no_return :
    (c10Report.recomendaciones.length : ℚ) <
      (c10Report.hallazgos_principales.length : ℚ) * (1 / 2) ∧
    ReportValidationService.validate_security_report (fun _ => false) (fun _ => false)
        c10Report =
      Except.error (pyAttributeError "DocumentMetadata" "fecha_creacion") ∧
    ∀ res : Bool × List String,
      ReportValidationService.validate_security_report (fun _ => false) (fun _ => false)
          c10Report ≠ Except.ok res := by
  refine ⟨?_, rfl, fun res h => ?_⟩
  · show ((1 : ℕ) : ℚ) < ((3 : ℕ) : ℚ) * (1 / 2)
    norm_num
  · rw [show ReportValidationService.validate_security_report (fun _ => false)
      (fun _ => false) c10Report =
      Except.error (pyAttributeError "DocumentMetadata" "fecha_creacion") from rfl] at h
    exact Except.noConfusion h

/-- Claim C10 as amended: the half-ratio consistency rule does exist in the
code — whenever a report has fewer recommendations than half its findings,
the consistency sub-check `_validate_report_consistency` produces the error
message naming both counts (a rule beyond those listed in the spec) — but
`validate_security_report` itself never returns an `is_valid` verdict,
since it raises on the missing `fecha_creacion` attribute first. -/
theorem c10_amended_consistency_rule (r : SecurityReport)
    (h : (r.recomendaciones.length : ℚ) < (r.hallazgos_principales.length : ℚ) * (1 / 2)) :
    ReportValidationService.consistency_low_recommendations_message
        r.recomendaciones.length r.hallazgos_principales.length ∈
      ReportValidationService.validate_report_consistency r := by
  unfold ReportValidationService.validate_report_consistency
  rw [if_pos h]
  exact List.mem_append_left _ (List.mem_cons_self _ _)

/-- Witness for the amended claim C10 at the concrete 3-findings /
1-recommendation report. -/
theorem c10_amended_consistency_rule_witness :
    ReportValidationService.consistency_low_recommendations_message
        c10Report.recomendaciones.length c10Report.hallazgos_principales.length ∈
      ReportValidationService.validate_report_consistency c10Report :=
  c10_amended_consistency_rule c10Report
    (by show ((1 : ℕ) : ℚ) < ((3 : ℕ) : ℚ) * (1 / 2); norm_num)

/-- The field names of the `TriageReport` model, transcribed from
`entities.py` lines 118-143 (identical in `models/triage.py`).  There is no
`vulnerabilities` field — the list field is `vulnerabilidades`. -/
def triageReportFields : List String :=
  ["id_reporte", "fecha_generacion", "reporte_origen", "resumen_triage",
    "total_vulnerabilidades", "distribucion_severidad", "distribucion_prioridad",
    "vulnerabilidades", "recomendaciones_generales", "plan_remediacion",
    "riesgo_general", "score_riesgo", "version_agente", "configuracion_triage"]

/-- The field names of the `TriagedVulnerability` model, transcribed from
`entities.py` lines 88-116 (identical in `models/triage.py`).  There is no
`analysis` (nor `original_finding`, `evidence`, `recommendations`) field. -/
def triagedVulnerabilityFields : List String :=
  ["id_vulnerabilidad", "nombre", "descripcion_original", "severidad_original",
    "severidad_triage", "justificacion_severidad", "prioridad", "justificacion_prioridad",
    "evidencias", "impacto_real", "probabilidad_explotacion", "recomendaciones",
    "fecha_triage", "confianza_analisis", "requiere_validacion_manual", "notas_adicionales"]

/-- The methods defined by `TriageService`, transcribed from
`triage_service.py` lines 16-226.  The enhancement step of the use case
calls `calculate_severity_level`, `calculate_priority_level`,
`assess_overall_risk` and `calculate_summary_statistics`, none of which
exist. -/
def triageServiceMethods : List String :=
  ["calculate_severity_score", "determine_severity_level", "determine_priority_level",
    "calculate_confidence_score", "calculate_overall_risk_score",
    "determine_overall_risk_level", "generate_remediation_plan",
    "_estimate_remediation_time", "_extract_resources_from_recommendations",
    "_extract_main_actions"]

namespace TriageVulnerabilitiesUseCase

/-- `TriageVulnerabilitiesUseCase._enhance_vulnerability_analysis`
(`use_cases/triage_vulnerabilities_use_case.py`, lines 147-197).  Its first
statement resolves `self._triage_service.calculate_severity_level` — a
method `TriageService` does not define — and then reads
`vulnerability.analysis`, a field `TriagedVulnerability` does not define;
either lookup raises, so the recomputation of severity, priority and
confidence below them is unreachable and is embedded as the identity
continuation. -/
def enhance_vulnerability_analysis (v : TriagedVulnerability) :
    Except String TriagedVulnerability := do
  requireAttribute triageServiceMethods "TriageService" "calculate_severity_level"
  requireAttribute triagedVulnerabilityFields "TriagedVulnerability" "analysis"
  pure v

/-- Steps 3-8 of `TriageVulnerabilitiesUseCase.execute`
(`use_cases/triage_vulnerabilities_use_case.py`, lines 56-98), starting
from the analyzer's returned report.  Step 3 iterates
`triage_report.vulnerabilities` — the model field is `vulnerabilidades`, so
the lookup raises for every report and the enhancement loop, summary
recomputation, final-report assembly and validation below it are
unreachable. -/
def execute_from_analyzed (tr : TriageReport) :
    Except String (List TriagedVulnerability) := do
  requireAttribute triageReportFields "TriageReport" "vulnerabilities"
  pure tr.vulnerabilidades

end TriageVulnerabilitiesUseCase

/-- Claim C1: contrary to the claim, the business-rule enhancement step can
never run: `execute` raises an `AttributeError` on
`triage_report.vulnerabilities` before the loop starts, and the enhancement
itself calls `TriageService.calculate_severity_level` (and reads
`vulnerability.analysis`) — names that do not exist on the embedded models
— so no final triage report with recomputed severity/priority/confidence is
ever assembled. -/
theorem c1_enhancement_step_never_runs :
    ("vulnerabilities" ∉ triageReportFields) ∧
    ("analysis" ∉ triagedVulnerabilityFields) ∧
    ("calculate_severity_level" ∉ triageServiceMethods) ∧
    ("calculate_priority_level" ∉ triageServiceMethods) ∧
    ("assess_overall_risk" ∉ triageServiceMethods) ∧
    ("calculate_summary_statistics" ∉ triageServiceMethods) ∧
    (∀ tr : TriageReport, TriageVulnerabilitiesUseCase.execute_from_analyzed tr =
      Except.error (pyAttributeError "TriageReport" "vulnerabilities")) ∧
    (∀ v : TriagedVulnerability, TriageVulnerabilitiesUseCase.enhance_vulnerability_analysis v =
      Except.error (pyAttributeError "TriageService" "calculate_severity_level")) :=
  ⟨by decide, by decide, by decide, by decide, by decide, by decide,
    fun tr => rfl, fun v => rfl⟩
